import Mathlib

/-!
Shallow embedding of the Weaviate vector-store adapter
(api/core/rag/datasource/vdb/weaviate/weaviate_vector.py) and proofs of the
specified properties.

Modelling conventions:
* Python floats (scores, vectors) are modelled as rationals (Rat).
* Python dicts whose keys are metadata field names are modelled as association
  lists (List (String × Value)) with dict assignment replacing in place.
* A GraphQL query response is modelled as a record holding an optional error
  list (the key "errors" of the response dict: none means the key is absent)
  and the list of result rows under data.Get.<collection>.
* Backend effects (schema store, network reachability) are passed as explicit
  state or oracle arguments.
-/

namespace Weaviate

/-- Naive Python datetime value: the fields that isoformat renders. -/
structure PyDateTime where
  year : Nat
  month : Nat
  day : Nat
  hour : Nat
  minute : Nat
  second : Nat
deriving DecidableEq, Repr

/-- Zero-pad a natural number to the given width, as Python %0Nd formatting. -/
def padNum (width : Nat) (n : Nat) : String :=
  let s := toString n
  if s.length < width then String.mk (List.replicate (width - s.length) '0') ++ s else s

/-- Model of Python datetime.isoformat for whole-second datetimes:
YYYY-MM-DDTHH:MM:SS. -/
def PyDateTime.isoformat (d : PyDateTime) : String :=
  padNum 4 d.year ++ "-" ++ padNum 2 d.month ++ "-" ++ padNum 2 d.day ++ "T" ++
    padNum 2 d.hour ++ ":" ++ padNum 2 d.minute ++ ":" ++ padNum 2 d.second

/-- Metadata value: the scalar value forms the adapter stores or transmits. -/
inductive Value where
  | str (s : String)
  | num (q : Rat)
  | boolean (b : Bool)
  | dt (d : PyDateTime)
  | null
deriving DecidableEq, Repr

/-- Whether a value is a Python datetime.datetime instance. -/
def Value.isDt : Value → Bool
  | Value.dt _ => true
  | _ => false

/-- Document record: page_content plus a metadata dict
(core.rag.models.document.Document). -/
structure Document where
  page_content : String
  metadata : List (String × Value)
deriving DecidableEq, Repr

/-- Python dict assignment d[k] = v on an association list: replaces the
binding in place when the key is present, appends it otherwise. -/
def dictSet (m : List (String × Value)) (k : String) (v : Value) :
    List (String × Value) :=
  match m with
  | [] => [(k, v)]
  | (k1, v1) :: rest =>
      if k1 = k then (k, v) :: rest else (k1, v1) :: dictSet rest k v

/-- Python dict lookup d[k] as an Option. -/
def dictGet (m : List (String × Value)) (k : String) : Option Value :=
  match m with
  | [] => none
  | (k1, v1) :: rest => if k1 = k then some v1 else dictGet rest k

/-- Dataset row (models.dataset.Dataset) restricted to the two fields
get_collection_name reads: the id, and the stored class_prefix found at
index_struct_dict.vector_store.class_prefix when index_struct_dict is truthy
(none models a falsy index_struct_dict). -/
structure Dataset where
  id : String
  index_struct_dict : Option String
deriving DecidableEq, Repr

/-- Model of Python str.endswith: the pattern characters are a suffix of the
string characters. -/
def endswith (s pat : String) : Bool :=
  List.isSuffixOf pat.data s.data

/-- Model of dataset_id.replace("-", "_"): the pattern is the single
character hyphen, so this is a character map. -/
def replaceDash (s : String) : String :=
  String.mk (s.data.map (fun c => if c = '-' then '_' else c))

/-- Marker-suffix rule applied to a stored class_prefix
(weaviate_vector.py lines 63-68): append the marker only when absent. -/
def marker_rule (cp : String) : String :=
  if endswith cp "_Node" then cp else cp ++ "_Node"

/-- Embedding of WeaviateVector.get_collection_name. -/
def get_collection_name (dataset : Dataset) : String :=
  match dataset.index_struct_dict with
  | some cp => marker_rule cp
  | none => "Vector_index_" ++ replaceDash dataset.id ++ "_Node"

/-- Error taxonomy of adapter construction: pydantic validation failure
(ValueError) versus ConnectionError. -/
inductive AdapterError where
  | configError (msg : String)
  | connectionError (msg : String)
deriving DecidableEq, Repr

/-- Embedding of WeaviateConfig: endpoint, api_key, batch_size. -/
structure WeaviateConfig where
  endpoint : String
  api_key : Option String
  batch_size : Int
deriving DecidableEq, Repr

/-- Embedding of WeaviateConfig.validate_config: pydantic root validator that
rejects a falsy (empty) endpoint before the config object exists. -/
def validate_config (endpoint : String) (api_key : Option String)
    (batch_size : Int) : Except AdapterError WeaviateConfig :=
  if endpoint = "" then
    Except.error (AdapterError.configError "config WEAVIATE_ENDPOINT is required")
  else
    Except.ok { endpoint := endpoint, api_key := api_key, batch_size := batch_size }

/-- Constructed client handle: the settings _init_client fixes on it. -/
structure WeaviateClient where
  url : String
  batch_size : Int
  timeout_retries : Nat
deriving DecidableEq, Repr

/-- Embedding of WeaviateVector._init_client. The reachable oracle models
whether weaviate.Client(url=...) raises requests ConnectionError; on failure
the adapter re-raises ConnectionError("Vector database connection error"). -/
def _init_client (reachable : Bool) (config : WeaviateConfig) :
    Except AdapterError WeaviateClient :=
  if reachable then
    Except.ok { url := config.endpoint, batch_size := config.batch_size,
                timeout_retries := 3 }
  else
    Except.error (AdapterError.connectionError "Vector database connection error")

/-- Adapter construction: the config is validated first (pydantic, no network),
then the client is connected. -/
def construct_adapter (reachable : Bool) (endpoint : String)
    (api_key : Option String) (batch_size : Int) :
    Except AdapterError WeaviateClient :=
  match validate_config endpoint api_key batch_size with
  | Except.error e => Except.error e
  | Except.ok cfg => _init_client reachable cfg

/-- Weaviate class schema as sent by the adapter: a class name and a list of
property definitions (property name and dataType list). -/
structure ClassSchema where
  className : String
  properties : List (String × List String)
deriving DecidableEq, Repr

/-- Embedding of WeaviateVector._default_schema: one text-typed field. -/
def _default_schema (index_name : String) : ClassSchema :=
  { className := index_name, properties := [("text", ["text"])] }

/-- Backend schema store: the classes currently defined, in creation order. -/
abbrev SchemaState : Type := List ClassSchema

/-- Model of client.schema.contains(schema): the backend already holds a class
with the given class name. -/
def schema_contains (st : SchemaState) (schema : ClassSchema) : Bool :=
  st.any (fun c => c.className = schema.className)

/-- Model of client.schema.create_class: the backend rejects a duplicate class
name with an error and otherwise appends the class. -/
def create_class (st : SchemaState) (schema : ClassSchema) :
    Except String SchemaState :=
  if schema_contains st schema then
    Except.error "class already exists"
  else
    Except.ok (st ++ [schema])

/-- Embedding of the schema-ensuring part of WeaviateVector.create: check
whether the index already exists, create the class only when it does not.
The subsequent add_texts call does not touch the schema store and is modelled
separately by add_texts below. -/
def create (collection_name : String) (st : SchemaState) :
    Except String SchemaState :=
  let schema := _default_schema collection_name
  if ¬ schema_contains st schema then create_class st schema
  else Except.ok st

/-- Reserved text field name Field.TEXT_KEY.value.
Modelled from the spec: core.rag.datasource.vdb.field is not under src; the
reserved field name is "text", as the spec states and as _default_schema and
the bm25 properties list in the source confirm. -/
def TEXT_KEY : String := "text"

/-- Embedding of WeaviateVector._json_serializable: datetime values are
rendered to their ISO-8601 string, everything else passes through unchanged. -/
def _json_serializable (value : Value) : Value :=
  match value with
  | Value.dt d => Value.str d.isoformat
  | v => v

/-- Identity assigner BaseVector._get_uuids.
Modelled from the spec: BaseVector (core.rag.datasource.vdb.vector_base) is
not under src; per spec section 4.2 the identity assigner computes one
identity per document record, here an arbitrary per-document assignment. -/
def _get_uuids (assign : Document → String) (documents : List Document) :
    List String :=
  documents.map assign

/-- Data object handed to client.batch.add_data_object. -/
structure DataObject where
  data_object : List (String × Value)
  class_name : String
  uuid : String
  vector : Option (List Rat)
deriving DecidableEq, Repr

/-- Properties dict built for one document inside the add_texts loop: start
from the dict holding the text under TEXT_KEY, then assign each metadata entry
through _json_serializable. -/
def build_data_properties (text : String) (metadata : List (String × Value)) :
    List (String × Value) :=
  metadata.foldl (fun props kv => dictSet props kv.1 (_json_serializable kv.2))
    [(TEXT_KEY, Value.str text)]

/-- Loop body of add_texts over documents and their uuids in lockstep
(uuids has one entry per document); i indexes embeddings as embeddings[i],
evaluated only when the embeddings list is truthy (non-empty). Indexing past
the end of a non-empty embeddings list raises IndexError: the raising
iteration emits no object and aborts the remaining iterations, while objects
already handed to the batch stay emitted. Returns the emitted data objects,
the accumulated ids (in input order), and the raised error if any. -/
def add_texts_loop (collection_name : String) (embeddings : List (List Rat)) :
    Nat → List Document → List String →
      List DataObject × List String × Option String
  | _, [], _ => ([], [], none)
  | _, _ :: _, [] => ([], [], none)
  | i, d :: ds, u :: us =>
      if embeddings.isEmpty then
        let rest := add_texts_loop collection_name embeddings (i + 1) ds us
        ({ data_object := build_data_properties d.page_content d.metadata,
           class_name := collection_name, uuid := u,
           vector := none } :: rest.1,
         u :: rest.2.1, rest.2.2)
      else
        match embeddings.get? i with
        | none => ([], [], some "IndexError: list index out of range")
        | some v =>
            let rest := add_texts_loop collection_name embeddings (i + 1) ds us
            ({ data_object := build_data_properties d.page_content d.metadata,
               class_name := collection_name, uuid := u,
               vector := some v } :: rest.1,
             u :: rest.2.1, rest.2.2)

/-- Chunking with explicit fuel (structural recursion so that concrete runs
reduce definitionally); fuel at least the list length never runs out. -/
def chunksGo (n : Nat) : Nat → List DataObject → List (List DataObject)
  | 0, _ => []
  | _, [] => []
  | fuel + 1, l => l.take (max 1 n) :: chunksGo n fuel (l.drop (max 1 n))

/-- Grouping of the emitted write stream into size-bounded batches, as the
weaviate client auto-batcher does with the configured batch_size. -/
def chunks (n : Nat) (l : List DataObject) : List (List DataObject) :=
  chunksGo n l.length l

/-- Embedding of WeaviateVector.add_texts: compute uuids, stream one data
object per document into the batch (batch_size only groups the stream), and
return the accumulated ids; when the loop raises (IndexError on a too-short
non-empty embeddings list) the call propagates the exception instead of
returning ids, while the first component keeps the objects already handed to
the batch. -/
def add_texts (collection_name : String) (assign : Document → String)
    (batch_size : Nat) (documents : List Document)
    (embeddings : List (List Rat)) :
    List (List DataObject) × Except String (List String) :=
  let uuids := _get_uuids assign documents
  let r := add_texts_loop collection_name embeddings 0 documents uuids
  (chunks batch_size r.1,
   match r.2.2 with
   | some e => Except.error e
   | none => Except.ok r.2.1)

/-- GraphQL query response for one Get query: errors is the optional "errors"
key of the response dict (none when the key is absent), rows the list found
under data.Get.<collection>. -/
structure QueryResponse (ρ : Type) where
  errors : Option (List String)
  rows : List ρ
deriving DecidableEq, Repr

/-- Message of the ValueError raised on a backend-reported query error; the
f-string rendering of the error list is modelled as comma intercalation. -/
def queryError (errs : List String) : String :=
  "Error during query: " ++ String.intercalate ", " errs

/-- Single-predicate equality where filter. -/
structure WhereFilter where
  path : List String
  operator : String
  valueText : String
deriving DecidableEq, Repr

/-- Get query assembled by the builder chain on client.query.get. -/
structure GetQuery where
  className : String
  nearVector : Option (List Rat)
  whereFilter : Option WhereFilter
  additional : List String
  bm25 : Option (String × List String)
  limit : Option Nat
deriving DecidableEq, Repr

/-- Row returned by the text_exists query: only _additional.id is requested;
the embedding only ever measures the row count. -/
structure ExistsRow where
  additional_id : String
deriving DecidableEq, Repr

/-- Query issued by WeaviateVector.text_exists. -/
def text_exists_query (collection_name : String) (id : String) : GetQuery :=
  { className := collection_name,
    nearVector := none,
    whereFilter := some { path := ["doc_id"], operator := "Equal", valueText := id },
    additional := ["id"],
    bm25 := none,
    limit := some 1 }

/-- Embedding of the response handling of WeaviateVector.text_exists: error
check, then false iff the entry list is empty. -/
def text_exists (resp : QueryResponse ExistsRow) : Except String Bool :=
  match resp.errors with
  | some errs => Except.error (queryError errs)
  | none => if resp.rows.length = 0 then Except.ok false else Except.ok true

/-- Row returned by the vector search: the text field, the requested
_additional.distance, and the remaining row fields after the text is popped
(they become the document metadata). -/
structure VectorRow where
  text : String
  distance : Rat
  rest : List (String × Value)
deriving DecidableEq, Repr

/-- Query built by WeaviateVector.search_by_vector: near-vector, optional
where filter passed through, limit top_k defaulting to 4, and the additional
fields vector and distance. -/
def search_by_vector_query (collection_name : String)
    (query_vector : List Rat) (where_filter : Option WhereFilter)
    (top_k : Option Nat) : GetQuery :=
  { className := collection_name,
    nearVector := some query_vector,
    whereFilter := where_filter,
    additional := ["vector", "distance"],
    bm25 := none,
    limit := some (top_k.getD 4) }

/-- First mapping loop of search_by_vector: pop the text into page_content,
keep the rest as metadata, read the score from _additional.distance. -/
def vector_row_to_doc_score (r : VectorRow) : Document × Rat :=
  ({ page_content := r.text, metadata := r.rest }, r.distance)

/-- Embedding of the response handling of WeaviateVector.search_by_vector:
error check, the mapping loop into docs_and_scores, then the filtering loop
that keeps a row only when score > score_threshold (kwargs default 0.0) and
assigns the score into the kept metadata under the score key. -/
def search_by_vector (score_threshold : Option Rat)
    (resp : QueryResponse VectorRow) : Except String (List Document) :=
  match resp.errors with
  | some errs => Except.error (queryError errs)
  | none =>
      let docs_and_scores := resp.rows.map vector_row_to_doc_score
      let docs := docs_and_scores.foldl
        (fun docs ds =>
          if ds.2 > score_threshold.getD 0 then
            docs ++ [{ ds.1 with
                       metadata := dictSet ds.1.metadata "score" (Value.num ds.2) }]
          else docs)
        []
      Except.ok docs

/-- Row returned by the full-text search: the text field and the remaining
row fields after the text is popped. -/
structure TextRow where
  text : String
  rest : List (String × Value)
deriving DecidableEq, Repr

/-- Python truthiness of an optional float kwarg: None and 0.0 are falsy. -/
def pyTruthyRat (o : Option Rat) : Bool :=
  match o with
  | none => false
  | some q => q ≠ 0

/-- Python truthiness of an optional dict-valued kwarg: None (and for the
where filter an empty dict, which the record type cannot express) is falsy. -/
def pyTruthyFilter (o : Option WhereFilter) : Bool :=
  o.isSome

/-- Python truthiness of an optional list kwarg: None and the empty list are
falsy. -/
def pyTruthyList (o : Option (List String)) : Bool :=
  match o with
  | none => false
  | some l => ¬ l.isEmpty

/-- Content dict built at the top of search_by_full_text: concepts holds the
query, and certainty is set from search_distance when that kwarg is truthy.
The dict is dead code in the source: nothing ever consumes it. -/
structure BM25Content where
  concepts : List String
  certainty : Option Rat
deriving DecidableEq, Repr

/-- Builder of the content dict of search_by_full_text. -/
def full_text_content (query : String) (search_distance : Option Rat) :
    BM25Content :=
  { concepts := [query],
    certainty := if pyTruthyRat search_distance then search_distance else none }

/-- Query built by WeaviateVector.search_by_full_text: optional where filter
and additional fields when truthy, bm25 over the text property, limit top_k
defaulting to 2. -/
def search_by_full_text_query (collection_name : String) (query : String)
    (where_filter : Option WhereFilter) (additional : Option (List String))
    (top_k : Option Nat) : GetQuery :=
  let q0 : GetQuery :=
    { className := collection_name, nearVector := none, whereFilter := none,
      additional := [], bm25 := none, limit := none }
  let q1 := if pyTruthyFilter where_filter then
              { q0 with whereFilter := where_filter } else q0
  let q2 := match additional with
            | some l => if ¬ l.isEmpty then { q1 with additional := l } else q1
            | none => q1
  { q2 with bm25 := some (query, ["text"]), limit := some (top_k.getD 2) }

/-- Embedding of WeaviateVector.search_by_full_text: the content dict is
built (and never used), the query is built and run, errors are checked, and
the mapping loop strips the text into page_content keeping the rest as
metadata, with no score filtering. Returns the executed query together with
the call result. -/
def search_by_full_text (collection_name : String) (query : String)
    (search_distance : Option Rat) (where_filter : Option WhereFilter)
    (additional : Option (List String)) (top_k : Option Nat)
    (resp : QueryResponse TextRow) :
    GetQuery × Except String (List Document) :=
  let _content := full_text_content query search_distance
  let q := search_by_full_text_query collection_name query where_filter
             additional top_k
  match resp.errors with
  | some errs => (q, Except.error (queryError errs))
  | none =>
      let docs := resp.rows.foldl
        (fun docs r => docs ++ [{ page_content := r.text, metadata := r.rest }])
        []
      (q, Except.ok docs)

/-! Lemmas about the marker-suffix rule. -/

theorem endswith_append_marker (s : String) :
    endswith (s ++ "_Node") "_Node" = true := by
  simp only [endswith, String.data_append, List.isSuffixOf_iff_suffix]
  exact List.suffix_append _ _

theorem marker_rule_idem (cp : String) :
    marker_rule (marker_rule cp) = marker_rule cp := by
  by_cases h : endswith cp "_Node" = true
  · simp [marker_rule, h]
  · simp only [marker_rule, h, if_false, Bool.false_eq_true]
    simp [endswith_append_marker]

/-- C2: collection-name derivation is a deterministic pure function of the
dataset fields it reads (id and stored class prefix); the marker-suffix rule
is idempotent, so a name already carrying the marker is not extended again;
and with no stored class prefix the name is Vector_index_ plus the dataset id
with hyphens replaced by underscores plus the marker. -/
theorem C2_collection_name_deterministic (d1 d2 : Dataset) :
    (d1.id = d2.id → d1.index_struct_dict = d2.index_struct_dict →
      get_collection_name d1 = get_collection_name d2) ∧
    (∀ cp : String, d1.index_struct_dict = some cp →
      d2.index_struct_dict = some cp →
      get_collection_name d1 = get_collection_name d2) ∧
    (∀ cp : String, marker_rule (marker_rule cp) = marker_rule cp) ∧
    (d1.index_struct_dict = none →
      get_collection_name d1 =
        "Vector_index_" ++ replaceDash d1.id ++ "_Node") := by
  refine ⟨?_, ?_, marker_rule_idem, ?_⟩
  · intro hid hstruct
    unfold get_collection_name
    rw [hid, hstruct]
  · intro cp h1 h2
    unfold get_collection_name
    rw [h1, h2]
  · intro hnone
    unfold get_collection_name
    rw [hnone]

/-- C2 witness: the theorem applied at concrete datasets, with two different
ids sharing a stored class prefix. -/
theorem C2_collection_name_witness :
    get_collection_name { id := "a", index_struct_dict := some "P" } =
      get_collection_name { id := "b", index_struct_dict := some "P" } ∧
    marker_rule (marker_rule "Vector_index_x_Node") =
      marker_rule "Vector_index_x_Node" ∧
    get_collection_name { id := "ab-c", index_struct_dict := none } =
      "Vector_index_ab_c_Node" := by
  have h := C2_collection_name_deterministic
    { id := "a", index_struct_dict := some "P" }
    { id := "b", index_struct_dict := some "P" }
  have h2 := C2_collection_name_deterministic
    { id := "ab-c", index_struct_dict := none }
    { id := "ab-c", index_struct_dict := none }
  refine ⟨h.2.1 "P" rfl rfl, h.2.2.1 "Vector_index_x_Node", ?_⟩
  rw [h2.2.2.2 rfl]
  rfl

/-- C6: schema creation is idempotent: create never errors; when the schema
already exists create leaves the store unchanged (no duplicate, no error);
and re-running create on the state it produced returns that state again. -/
theorem C6_create_idempotent (name : String) (st : SchemaState) :
    (∃ st2, create name st = Except.ok st2) ∧
    (schema_contains st (_default_schema name) = true →
      create name st = Except.ok st) ∧
    (∀ st2, create name st = Except.ok st2 →
      create name st2 = Except.ok st2) := by
  refine ⟨?_, ?_, ?_⟩
  · by_cases h : schema_contains st (_default_schema name) = true
    · exact ⟨st, by simp [create, h]⟩
    · exact ⟨st ++ [_default_schema name], by simp [create, h, create_class]⟩
  · intro h
    simp [create, h]
  · intro st2 h
    by_cases hc : schema_contains st (_default_schema name) = true
    · simp only [create, hc, not_true, if_neg, ite_false] at h
      simp only [Except.ok.injEq] at h
      subst h
      simp [create, hc]
    · simp only [create, hc, create_class] at h
      rw [if_pos (by simp [hc]), if_neg (by simp [hc])] at h
      simp only [Except.ok.injEq] at h
      subst h
      have hcontains : schema_contains (st ++ [_default_schema name])
          (_default_schema name) = true := by
        simp [schema_contains]
      simp [create, hcontains]

/-- C6 witness: the theorem applied at a concrete name and empty store. -/
theorem C6_create_idempotent_witness :
    create "C" ([] : SchemaState) = Except.ok [_default_schema "C"] ∧
    create "C" [_default_schema "C"] = Except.ok [_default_schema "C"] := by
  have h := C6_create_idempotent "C" ([] : SchemaState)
  have h1 : create "C" ([] : SchemaState) = Except.ok [_default_schema "C"] := rfl
  exact ⟨h1, h.2.2 [_default_schema "C"] h1⟩

/-- C7: an empty endpoint fails construction with the validation error no
matter whether the backend is reachable (so before any connection attempt);
a non-empty endpoint with an unreachable backend fails with the distinct
connection error, raised during client construction. -/
theorem C7_config_validation (endpoint : String)
    (api_key : Option String) (batch_size : Int)
    (hne : endpoint ≠ "") :
    (∀ r2 : Bool, ∀ k : Option String, ∀ b : Int,
      construct_adapter r2 "" k b =
        Except.error (AdapterError.configError "config WEAVIATE_ENDPOINT is required")) ∧
    (construct_adapter false endpoint api_key batch_size =
      Except.error (AdapterError.connectionError "Vector database connection error")) ∧
    (∀ m1 m2 : String, AdapterError.configError m1 ≠ AdapterError.connectionError m2) := by
  refine ⟨?_, ?_, ?_⟩
  · intro r2 k b
    simp [construct_adapter, validate_config]
  · simp [construct_adapter, validate_config, hne, _init_client]
  · intro m1 m2 h
    exact AdapterError.noConfusion h

/-- C7 witness: the theorem applied at a concrete endpoint. -/
theorem C7_config_validation_witness :
    construct_adapter true "" none 100 =
      Except.error (AdapterError.configError "config WEAVIATE_ENDPOINT is required") ∧
    construct_adapter false "http://w" none 100 =
      Except.error (AdapterError.connectionError "Vector database connection error") := by
  have h := C7_config_validation "http://w" none 100 (by decide)
  exact ⟨h.1 true none 100, h.2.1⟩

/-! Fold lemmas for the two result-mapping loops. -/

theorem foldl_append_map {α β : Type} (f : α → β) (l : List α) (acc : List β) :
    l.foldl (fun docs r => docs ++ [f r]) acc = acc ++ l.map f := by
  induction l generalizing acc with
  | nil => simp
  | cons a l ih => simp [ih]

theorem full_text_query_eq (collection_name query : String)
    (search_distance : Option Rat) (where_filter : Option WhereFilter)
    (additional : Option (List String)) (top_k : Option Nat)
    (resp : QueryResponse TextRow) :
    (search_by_full_text collection_name query search_distance where_filter
      additional top_k resp).1 =
      search_by_full_text_query collection_name query where_filter
        additional top_k := by
  cases h : resp.errors <;> simp [search_by_full_text, h]

/-- C8: the existence check issues a Get query whose where filter matches
doc_id equal to the given id with limit 1, and on an error-free response it
returns true exactly when at least one row came back. -/
theorem C8_text_exists (collection_name id : String)
    (resp : QueryResponse ExistsRow) (herr : resp.errors = none) :
    (text_exists_query collection_name id).whereFilter =
      some { path := ["doc_id"], operator := "Equal", valueText := id } ∧
    (text_exists_query collection_name id).limit = some 1 ∧
    (text_exists resp = Except.ok true ↔ resp.rows ≠ []) ∧
    (text_exists resp = Except.ok false ↔ resp.rows = []) := by
  refine ⟨rfl, rfl, ?_, ?_⟩ <;>
    cases hr : resp.rows <;>
      simp [text_exists, herr, hr]

/-- C8 witness: the theorem applied at a one-row and a zero-row response. -/
theorem C8_text_exists_witness :
    text_exists { errors := none, rows := [{ additional_id := "u1" }] } =
      Except.ok true ∧
    text_exists { errors := none, rows := ([] : List ExistsRow) } =
      Except.ok false := by
  have h1 := C8_text_exists "C" "d1"
    { errors := none, rows := [{ additional_id := "u1" }] } rfl
  have h2 := C8_text_exists "C" "d1"
    { errors := none, rows := ([] : List ExistsRow) } rfl
  exact ⟨h1.2.2.1.mpr (by simp), h2.2.2.2.mpr rfl⟩

/-- C9: full-text search defaults its limit to 2 when top_k is not supplied,
applies no score-threshold filtering (on an error-free response every row is
returned, so the output has one document per row), and maps each row by
stripping the text field into page_content and keeping the remaining fields
as metadata. -/
theorem C9_full_text (collection_name query : String)
    (search_distance : Option Rat) (where_filter : Option WhereFilter)
    (additional : Option (List String)) (top_k : Option Nat)
    (resp : QueryResponse TextRow) (herr : resp.errors = none) :
    (search_by_full_text collection_name query search_distance where_filter
        additional none resp).1.limit = some 2 ∧
    (search_by_full_text collection_name query search_distance where_filter
        additional top_k resp).2 =
      Except.ok (resp.rows.map
        (fun r => { page_content := r.text, metadata := r.rest })) ∧
    (∃ docs, (search_by_full_text collection_name query search_distance
        where_filter additional top_k resp).2 = Except.ok docs ∧
      docs.length = resp.rows.length) := by
  refine ⟨?_, ?_, ?_⟩
  · rw [full_text_query_eq]
    rfl
  · simp only [search_by_full_text, herr]
    rw [foldl_append_map]
    simp
  · refine ⟨resp.rows.map
      (fun r => { page_content := r.text, metadata := r.rest }), ?_, by simp⟩
    simp only [search_by_full_text, herr]
    rw [foldl_append_map]
    simp

/-- C9 witness: the theorem applied at a concrete two-row response. -/
theorem C9_full_text_witness :
    (search_by_full_text "C" "q" none none none none
        { errors := none,
          rows := [{ text := "a", rest := [("k", Value.num 1)] },
                   { text := "b", rest := [] }] }).1.limit = some 2 ∧
    (search_by_full_text "C" "q" none none none none
        { errors := none,
          rows := [{ text := "a", rest := [("k", Value.num 1)] },
                   { text := "b", rest := [] }] }).2 =
      Except.ok [{ page_content := "a", metadata := [("k", Value.num 1)] },
                 { page_content := "b", metadata := [] }] := by
  have h := C9_full_text "C" "q" none none none none
    { errors := none,
      rows := [{ text := "a", rest := [("k", Value.num 1)] },
               { text := "b", rest := [] }] } rfl
  exact ⟨h.1, h.2.1⟩

/-- C10: two full-text search runs that differ only in the search_distance
kwarg build the same query and, on the same backend response, return the same
document list: the certainty entry lands in the content dict, which the
executed query never incorporates. -/
theorem C10_search_distance_ignored (collection_name query : String)
    (sd1 sd2 : Option Rat) (where_filter : Option WhereFilter)
    (additional : Option (List String)) (top_k : Option Nat)
    (resp : QueryResponse TextRow) :
    search_by_full_text collection_name query sd1 where_filter additional
        top_k resp =
      search_by_full_text collection_name query sd2 where_filter additional
        top_k resp := rfl

/-- Well-formed GraphQL error entry: when the errors key is present its list
is non-empty (the GraphQL response format guarantees this). -/
def WellFormedErrors (o : Option (List String)) : Prop :=
  ∀ l, o = some l → l ≠ []

/-- C4: over well-formed responses, each of vector search, existence check
and full-text search fails exactly when the response carries a non-empty
error list, and the failure message carries the backend errors; an error-free
response is never rejected on this ground. Each embedding consumes a single
response, so no retry is issued. -/
theorem C4_query_error_surfacing (score_threshold : Option Rat)
    (r1 : QueryResponse VectorRow) (r2 : QueryResponse ExistsRow)
    (collection_name query : String) (search_distance : Option Rat)
    (where_filter : Option WhereFilter) (additional : Option (List String))
    (top_k : Option Nat) (r3 : QueryResponse TextRow)
    (h1 : WellFormedErrors r1.errors) (h2 : WellFormedErrors r2.errors)
    (h3 : WellFormedErrors r3.errors) :
    ((∃ errs, r1.errors = some errs ∧ errs ≠ [] ∧
        search_by_vector score_threshold r1 = Except.error (queryError errs)) ∨
      (r1.errors = none ∧
        ∃ docs, search_by_vector score_threshold r1 = Except.ok docs)) ∧
    ((∃ errs, r2.errors = some errs ∧ errs ≠ [] ∧
        text_exists r2 = Except.error (queryError errs)) ∨
      (r2.errors = none ∧ ∃ b, text_exists r2 = Except.ok b)) ∧
    ((∃ errs, r3.errors = some errs ∧ errs ≠ [] ∧
        (search_by_full_text collection_name query search_distance
          where_filter additional top_k r3).2 = Except.error (queryError errs)) ∨
      (r3.errors = none ∧
        ∃ docs, (search_by_full_text collection_name query search_distance
          where_filter additional top_k r3).2 = Except.ok docs)) := by
  refine ⟨?_, ?_, ?_⟩
  · cases he : r1.errors with
    | some errs =>
        exact Or.inl ⟨errs, rfl, h1 errs he, by simp [search_by_vector, he]⟩
    | none =>
        refine Or.inr ⟨rfl, ?_⟩
        simp only [search_by_vector, he]
        exact ⟨_, rfl⟩
  · cases he : r2.errors with
    | some errs =>
        exact Or.inl ⟨errs, rfl, h2 errs he, by simp [text_exists, he]⟩
    | none =>
        refine Or.inr ⟨rfl, ?_⟩
        by_cases hr : r2.rows.length = 0
        · exact ⟨false, by simp [text_exists, he, hr]⟩
        · exact ⟨true, by simp [text_exists, he, hr]⟩
  · cases he : r3.errors with
    | some errs =>
        exact Or.inl ⟨errs, rfl, h3 errs he, by simp [search_by_full_text, he]⟩
    | none =>
        refine Or.inr ⟨rfl, ?_⟩
        simp only [search_by_full_text, he]
        exact ⟨_, rfl⟩

/-- C4 witness: the theorem applied at one failing and two error-free
concrete responses. -/
theorem C4_query_error_witness :
    search_by_vector none
        { errors := some ["boom"], rows := ([] : List VectorRow) } =
      Except.error (queryError ["boom"]) ∧
    text_exists { errors := none, rows := ([] : List ExistsRow) } =
      Except.ok false ∧
    (search_by_full_text "C" "q" none none none none
        { errors := none, rows := ([] : List TextRow) }).2 =
      Except.ok [] := by
  have h := C4_query_error_surfacing none
    { errors := some ["boom"], rows := ([] : List VectorRow) }
    { errors := none, rows := ([] : List ExistsRow) }
    "C" "q" none none none none
    { errors := none, rows := ([] : List TextRow) }
    (by intro l hl; cases hl; simp)
    (by intro l hl; cases hl)
    (by intro l hl; cases hl)
  refine ⟨?_, ?_, ?_⟩
  · rcases h.1 with ⟨errs, he, _, heq⟩ | ⟨hnone, _⟩
    · cases he
      exact heq
    · cases hnone
  · rcases h.2.1 with ⟨errs, he, _, _⟩ | ⟨_, b, heq⟩
    · cases he
    · cases b
      · exact heq
      · exact absurd heq (by simp [text_exists])
  · rcases h.2.2 with ⟨errs, he, _, _⟩ | ⟨_, docs, heq⟩
    · cases he
    · have hnil : docs = [] := by
        have h0 := heq
        simp [search_by_full_text] at h0
        exact h0
      rw [hnil] at heq
      exact heq

/-- Document produced for a retained vector-search row: score assigned into
the metadata under the score key. -/
def attach_score (r : VectorRow) : Document :=
  { page_content := r.text,
    metadata := dictSet r.rest "score" (Value.num r.distance) }

theorem search_vector_fold (st : Rat) (l : List VectorRow)
    (acc : List Document) :
    (l.map vector_row_to_doc_score).foldl
      (fun docs ds =>
        if ds.2 > st then
          docs ++ [{ ds.1 with
                     metadata := dictSet ds.1.metadata "score" (Value.num ds.2) }]
        else docs)
      acc =
    acc ++ (l.filter (fun r => decide (r.distance > st))).map attach_score := by
  induction l generalizing acc with
  | nil => simp
  | cons r l ih =>
      by_cases h : r.distance > st
      · simp [vector_row_to_doc_score, h, ih, attach_score]
      · simp [vector_row_to_doc_score, h, ih]

/-- C1 counterexample: with the default threshold 0.0 the claimed pass
condition score ≤ score_threshold rejects a row of score 1, yet the code
retains it (with the score attached); with threshold 2 the claimed condition
accepts that same row of score 1, yet the code drops it. -/
theorem C1_counterexample :
    ¬ ((1 : Rat) ≤ 0) ∧
    search_by_vector none
        { errors := none,
          rows := [{ text := "hello", distance := 1, rest := [] }] } =
      Except.ok [{ page_content := "hello",
                   metadata := [("score", Value.num 1)] }] ∧
    (1 : Rat) ≤ 2 ∧
    search_by_vector (some 2)
        { errors := none,
          rows := [{ text := "hello", distance := 1, rest := [] }] } =
      Except.ok [] := by
  refine ⟨by norm_num, rfl, by norm_num, rfl⟩

/-- C1 amended: for every error-free vector-search response, a result row is
retained if and only if its score satisfies score > score_threshold (strictly
greater, with score_threshold defaulting to 0.0 when not supplied); rows
whose score is at most the threshold are excluded, and every retained row has
its score attached into the result metadata under the score key. -/
theorem C1_score_filter (score_threshold : Option Rat)
    (resp : QueryResponse VectorRow) (herr : resp.errors = none) :
    search_by_vector score_threshold resp =
      Except.ok
        ((resp.rows.filter
            (fun r => decide (r.distance > score_threshold.getD 0))).map
          attach_score) := by
  simp only [search_by_vector, herr]
  rw [search_vector_fold]
  simp

/-- C1 witness: the theorem applied at a concrete one-row response, under the
default threshold. -/
theorem C1_score_filter_witness :
    search_by_vector none
        { errors := none,
          rows := [{ text := "hi", distance := 1, rest := [("k", Value.null)] }] } =
      Except.ok [{ page_content := "hi",
                   metadata := [("k", Value.null), ("score", Value.num 1)] }] := by
  have h := C1_score_filter none
    { errors := none,
      rows := [{ text := "hi", distance := 1, rest := [("k", Value.null)] }] } rfl
  rw [h]
  rfl

theorem add_texts_loop_ids (collection_name : String)
    (embeddings : List (List Rat)) :
    ∀ (i : Nat) (ds : List Document) (us : List String),
      us.length = ds.length →
      (embeddings = [] ∨ i + ds.length ≤ embeddings.length) →
      (add_texts_loop collection_name embeddings i ds us).2.1 = us ∧
      (add_texts_loop collection_name embeddings i ds us).2.2 = none := by
  intro i ds
  induction ds generalizing i with
  | nil =>
      intro us hlen _
      cases us with
      | nil => exact ⟨rfl, rfl⟩
      | cons u us => simp at hlen
  | cons d ds ih =>
      intro us hlen hemb
      cases us with
      | nil => simp at hlen
      | cons u us =>
          simp only [List.length_cons, Nat.succ.injEq] at hlen
          rcases hemb with hnil | hle
          · have hempty : embeddings.isEmpty = true := by
              rw [hnil]; rfl
            have ihr := ih (i + 1) us hlen (Or.inl hnil)
            simp only [add_texts_loop, hempty, if_pos]
            exact ⟨by rw [ihr.1], ihr.2⟩
          · have hlt : i < embeddings.length := by
              simp only [List.length_cons] at hle
              omega
            have hne : embeddings.isEmpty = false := by
              cases hb : embeddings with
              | nil => rw [hb] at hlt; simp at hlt
              | cons e es => rfl
            obtain ⟨v, hv⟩ : ∃ v, embeddings.get? i = some v := by
              cases hg : embeddings.get? i with
              | none =>
                  have := List.get?_eq_none.mp hg
                  omega
              | some v => exact ⟨v, rfl⟩
            have ihr := ih (i + 1) us hlen (Or.inr (by
              simp only [List.length_cons] at hle
              omega))
            simp only [add_texts_loop, hne, Bool.false_eq_true, if_false, hv]
            exact ⟨by rw [ihr.1], ihr.2⟩

/-- C3: under the documented precondition that the embeddings list is absent
(empty) or supplies at least one vector per document, add_texts returns
exactly one assigned id per input document, in input order (the id list is
the identity assignment mapped over the input list), and the returned ids do
not depend on the batch size that groups the writes. Outside that
precondition the loop raises IndexError and no ids are returned. -/
theorem C3_add_texts_ids (collection_name : String)
    (assign : Document → String) (batch_size : Nat)
    (documents : List Document) (embeddings : List (List Rat))
    (hemb : embeddings = [] ∨ documents.length ≤ embeddings.length) :
    (add_texts collection_name assign batch_size documents embeddings).2 =
      Except.ok (documents.map assign) ∧
    (∃ ids, (add_texts collection_name assign batch_size documents
        embeddings).2 = Except.ok ids ∧ ids.length = documents.length) ∧
    (∀ batch_size2 : Nat,
      (add_texts collection_name assign batch_size2 documents embeddings).2 =
        (add_texts collection_name assign batch_size documents embeddings).2) := by
  have hloop := add_texts_loop_ids collection_name embeddings 0 documents
    (documents.map assign) (by simp)
    (by rcases hemb with h | h
        · exact Or.inl h
        · exact Or.inr (by simpa using h))
  have hids : (add_texts collection_name assign batch_size documents
      embeddings).2 = Except.ok (documents.map assign) := by
    simp only [add_texts, _get_uuids]
    rw [hloop.2, hloop.1]
  refine ⟨hids, ⟨documents.map assign, hids, by simp⟩, ?_⟩
  intro batch_size2
  rw [hids]
  simp only [add_texts, _get_uuids]
  rw [hloop.2, hloop.1]

/-- C3 witness: the theorem applied at two documents with two embeddings. -/
theorem C3_add_texts_ids_witness :
    (add_texts "C" (fun d => d.page_content) 1
        [{ page_content := "a", metadata := [] },
         { page_content := "b", metadata := [] }]
        [[1], [2]]).2 = Except.ok ["a", "b"] := by
  have h := C3_add_texts_ids "C" (fun d => d.page_content) 1
    [{ page_content := "a", metadata := [] },
     { page_content := "b", metadata := [] }]
    [[1], [2]] (Or.inr (by decide))
  rw [h.1]
  rfl

/-! Dict lemmas for the properties built by the batch writer. -/

theorem dictGet_dictSet (m : List (String × Value)) (k k2 : String)
    (v : Value) :
    dictGet (dictSet m k v) k2 = if k = k2 then some v else dictGet m k2 := by
  induction m with
  | nil => simp [dictSet, dictGet]
  | cons kv m ih =>
      obtain ⟨k1, v1⟩ := kv
      by_cases h1 : k1 = k
      · subst h1
        by_cases h2 : k1 = k2 <;> simp [dictSet, dictGet, h2]
      · simp only [dictSet, h1, if_false, if_neg h1]
        by_cases h2 : k1 = k2
        · subst h2
          have hne : ¬ k = k1 := fun h => h1 h.symm
          simp [dictGet, hne]
        · simp [dictGet, h2, ih]

theorem foldl_dictSet_other (md : List (String × Value)) (k : String)
    (hk : ∀ kv ∈ md, kv.1 ≠ k) :
    ∀ props : List (String × Value),
      dictGet (md.foldl
        (fun props kv => dictSet props kv.1 (_json_serializable kv.2)) props) k =
      dictGet props k := by
  induction md with
  | nil => intro props; rfl
  | cons kv md ih =>
      intro props
      have hkv : kv.1 ≠ k := hk kv (List.mem_cons_self kv md)
      have htail : ∀ kv2 ∈ md, kv2.1 ≠ k :=
        fun kv2 h2 => hk kv2 (List.mem_cons_of_mem kv h2)
      simp only [List.foldl_cons]
      rw [ih htail, dictGet_dictSet, if_neg hkv]

theorem foldl_dictSet_mem (md : List (String × Value)) (kv : String × Value)
    (hmem : kv ∈ md) (hnd : (md.map Prod.fst).Nodup) :
    ∀ props : List (String × Value),
      dictGet (md.foldl
        (fun props kv => dictSet props kv.1 (_json_serializable kv.2)) props)
        kv.1 =
      some (_json_serializable kv.2) := by
  induction md with
  | nil => cases hmem
  | cons kv0 md ih =>
      intro props
      simp only [List.map_cons, List.nodup_cons] at hnd
      rcases List.mem_cons.mp hmem with heq | htl
      · subst heq
        have hrest : ∀ kv2 ∈ md, kv2.1 ≠ kv.1 := by
          intro kv2 h2 habs
          exact hnd.1 (habs ▸ List.mem_map_of_mem Prod.fst h2)
        simp only [List.foldl_cons]
        rw [foldl_dictSet_other md kv.1 hrest, dictGet_dictSet, if_pos rfl]
      · simp only [List.foldl_cons]
        exact ih htl hnd.2 _

theorem add_texts_loop_mem (collection_name : String)
    (embeddings : List (List Rat)) :
    ∀ (i : Nat) (ds : List Document) (us : List String)
      (obj : DataObject),
      obj ∈ (add_texts_loop collection_name embeddings i ds us).1 →
      ∃ d ∈ ds,
        obj.data_object = build_data_properties d.page_content d.metadata := by
  intro i ds
  induction ds generalizing i with
  | nil =>
      intro us obj h
      cases us <;> cases h
  | cons d ds ih =>
      intro us obj h
      cases us with
      | nil => cases h
      | cons u us =>
          cases hemp : embeddings.isEmpty with
          | true =>
              simp only [add_texts_loop, hemp, if_true] at h
              rcases List.mem_cons.mp h with heq | htl
              · exact ⟨d, List.mem_cons_self d ds, by rw [heq]⟩
              · obtain ⟨d2, hd2, hobj⟩ := ih (i + 1) us obj htl
                exact ⟨d2, List.mem_cons_of_mem d hd2, hobj⟩
          | false =>
              cases hg : embeddings.get? i with
              | none =>
                  simp only [add_texts_loop, hemp, Bool.false_eq_true,
                    if_false, hg] at h
                  cases h
              | some v =>
                  simp only [add_texts_loop, hemp, Bool.false_eq_true,
                    if_false, hg] at h
                  rcases List.mem_cons.mp h with heq | htl
                  · exact ⟨d, List.mem_cons_self d ds, by rw [heq]⟩
                  · obtain ⟨d2, hd2, hobj⟩ := ih (i + 1) us obj htl
                    exact ⟨d2, List.mem_cons_of_mem d hd2, hobj⟩

theorem chunksGo_flatten (n : Nat) :
    ∀ (fuel : Nat) (l : List DataObject), l.length ≤ fuel →
      (chunksGo n fuel l).flatten = l := by
  intro fuel
  induction fuel with
  | zero =>
      intro l hl
      have : l = [] := List.length_eq_zero.mp (Nat.le_zero.mp hl)
      subst this
      rfl
  | succ fuel ih =>
      intro l hl
      cases l with
      | nil => rfl
      | cons a l =>
          simp only [chunksGo, List.flatten_cons]
          rw [ih ((a :: l).drop (max 1 n)) ?_]
          · exact List.take_append_drop _ _
          · have h1 : 1 ≤ max 1 n := Nat.le_max_left 1 n
            have h4 : l.length ≤ fuel := by
              simp only [List.length_cons] at hl
              exact Nat.le_of_succ_le_succ hl
            simp only [List.length_drop, List.length_cons]
            calc l.length + 1 - max 1 n
                ≤ l.length + 1 - 1 := Nat.sub_le_sub_left h1 _
              _ = l.length := rfl
              _ ≤ fuel := h4

theorem chunks_flatten (n : Nat) (l : List DataObject) :
    (chunks n l).flatten = l :=
  chunksGo_flatten n l.length l (Nat.le_refl _)

/-- C5 counterexample: a document whose metadata itself carries a key equal
to the reserved text field name. The loop assigns metadata entries into the
properties dict after the text, so the metadata value overwrites the document
text: the transmitted properties do not store the page content under the
reserved field. -/
theorem C5_counterexample :
    dictGet (build_data_properties "hello" [("text", Value.str "EVIL")])
        TEXT_KEY = some (Value.str "EVIL") ∧
    Value.str "EVIL" ≠ Value.str "hello" ∧
    (add_texts "C" (fun _ => "u1") 100
        [{ page_content := "hello", metadata := [("text", Value.str "EVIL")] }]
        []).1.flatten =
      [{ data_object := [("text", Value.str "EVIL")], class_name := "C",
         uuid := "u1", vector := none }] := by
  refine ⟨by decide, by decide, by decide⟩

/-- C5 amended: for every document written by the batch writer whose metadata
keys are distinct and avoid the reserved text field name, the transmitted
properties store the document text under the reserved name and every metadata
value is passed through the single pure normalization function
_json_serializable, which serializes date/time values to their ISO-8601
string and leaves every non-date value unchanged. -/
theorem C5_metadata_serialization (collection_name : String)
    (assign : Document → String) (batch_size : Nat)
    (documents : List Document) (embeddings : List (List Rat))
    (hnd : ∀ d ∈ documents, (d.metadata.map Prod.fst).Nodup)
    (hkt : ∀ d ∈ documents, ∀ kv ∈ d.metadata, kv.1 ≠ TEXT_KEY) :
    (∀ obj ∈ (add_texts collection_name assign batch_size documents
        embeddings).1.flatten,
      ∃ d ∈ documents,
        dictGet obj.data_object TEXT_KEY = some (Value.str d.page_content) ∧
        ∀ kv ∈ d.metadata,
          dictGet obj.data_object kv.1 = some (_json_serializable kv.2)) ∧
    (∀ dt : PyDateTime,
      _json_serializable (Value.dt dt) = Value.str dt.isoformat) ∧
    (∀ v : Value, v.isDt = false → _json_serializable v = v) := by
  refine ⟨?_, fun dt => rfl, ?_⟩
  · intro obj hobj
    simp only [add_texts] at hobj
    rw [chunks_flatten] at hobj
    obtain ⟨d, hd, hprops⟩ :=
      add_texts_loop_mem collection_name embeddings 0 documents
        (_get_uuids assign documents) obj hobj
    refine ⟨d, hd, ?_, ?_⟩
    · rw [hprops]
      unfold build_data_properties
      rw [foldl_dictSet_other d.metadata TEXT_KEY (hkt d hd)]
      simp [dictGet]
    · intro kv hkv
      rw [hprops]
      unfold build_data_properties
      exact foldl_dictSet_mem d.metadata kv hkv (hnd d hd) _
  · intro v hv
    cases v <;> first | rfl | simp [Value.isDt] at hv

/-- C5 witness: the amended theorem applied at a concrete document with one
non-clashing metadata entry, upserted with an empty embeddings list. -/
theorem C5_metadata_serialization_witness :
    dictGet (build_data_properties "hello" [("a", Value.num 1)]) TEXT_KEY =
      some (Value.str "hello") ∧
    dictGet (build_data_properties "hello" [("a", Value.num 1)]) "a" =
      some (_json_serializable (Value.num 1)) := by
  have h := C5_metadata_serialization "C" (fun _ => "u1") 100
    [{ page_content := "hello", metadata := [("a", Value.num 1)] }] []
    (by intro d hd; simp at hd; subst hd; simp)
    (by intro d hd kv hkv; simp at hd; subst hd; simp at hkv; subst hkv; decide)
  have hflat : (add_texts "C" (fun _ => "u1") 100
      [{ page_content := "hello", metadata := [("a", Value.num 1)] }]
      []).1.flatten =
      [⟨build_data_properties "hello" [("a", Value.num 1)], "C", "u1", none⟩] := by
    decide
  have hmem : (⟨build_data_properties "hello" [("a", Value.num 1)], "C", "u1",
      none⟩ : DataObject) ∈
      (add_texts "C" (fun _ => "u1") 100
        [{ page_content := "hello", metadata := [("a", Value.num 1)] }]
        []).1.flatten := by
    rw [hflat]
    exact List.mem_singleton_self _
  obtain ⟨d, hd, htext, hmeta⟩ := h.1 _ hmem
  simp only [List.mem_singleton] at hd
  subst hd
  exact ⟨htext, hmeta ("a", Value.num 1) (by simp)⟩

end Weaviate
